import Mathlib

/-!
Verification of the StayNGo booking core (src/app.py): the booking
transaction handler `book_room`, the availability reconciler
`update_room_availability`, and the cancellation handler `cancel_booking`,
over a shallow embedding of the relational store.

Dates are modelled as integer day ordinals: the handler parses date-only
strings with strptime, so `(check_out - check_in).days` is exactly the
difference of day ordinals, and the reconciler's `check_out_date <= now`
comparison is interpreted on the same integer timeline.
-/

namespace StayNGo

/-- Booking status values used by the core (`booking_status` column). -/
inductive BStatus where
  | confirmed
  | completed
deriving DecidableEq

/-- A ROOMS row, reduced to the columns the booking core touches. -/
structure Room where
  room_id : Nat
  property_id : Nat
  price_per_night : Int
  availability_status : Bool
deriving DecidableEq

/-- A BOOKINGS row, reduced to the columns the booking core touches. -/
structure Booking where
  booking_id : Nat
  user_id : Nat
  room_id : Nat
  check_in_date : Int
  check_out_date : Int
  total_price : Int
  booking_status : BStatus
deriving DecidableEq

/-- A PAYMENTS row, reduced to the columns the booking core touches. -/
structure Payment where
  payment_id : Nat
  booking_id : Nat
  payment_method : String
  amount : Int
  payment_status : String
deriving DecidableEq

/-- The persistence store: the three tables the booking core touches, plus
the auto-increment counters behind `cursor.lastrowid`. -/
structure DB where
  rooms : List Room
  bookings : List Booking
  payments : List Payment
  next_booking_id : Nat
  next_payment_id : Nat
deriving DecidableEq

instance {ε α : Type} [DecidableEq ε] [DecidableEq α] : DecidableEq (Except ε α) := fun a b =>
  match a, b with
  | .error e1, .error e2 =>
    if h : e1 = e2 then .isTrue (by rw [h]) else .isFalse (fun hc => h (Except.error.inj hc))
  | .error _, .ok _ => .isFalse (fun hc => Except.noConfusion hc)
  | .ok _, .error _ => .isFalse (fun hc => Except.noConfusion hc)
  | .ok a1, .ok a2 =>
    if h : a1 = a2 then .isTrue (by rw [h]) else .isFalse (fun hc => h (Except.ok.inj hc))

/-- Modelled from the spec: the INSERT into BOOKINGS in `book_room`
(src/app.py line 305) omits the `booking_status` column, so its value comes
from the table schema, which is not under src/. The spec states that the
handler inserts the Booking with status = confirmed, and the rest of the
code (the reconciler's filter and the `room_status` view's join on
booking_status = 'confirmed') relies on exactly that default. -/
def defaultBookingStatus : BStatus := .confirmed

/-- A booking request as received by the `book_room` POST handler:
route parameter `room_id`, session `user_id`, and the form fields. -/
structure BookReq where
  user_id : Nat
  room_id : Nat
  check_in_date : Int
  check_out_date : Int
  payment_method : String
deriving DecidableEq

/-- The observations `book_room` can produce for the caller.
`roomUnavailable` is the single branch at src/app.py line 282
(`if not room or not room['availability_status']`), which flashes
"This room is currently unavailable." both when the room row is absent and
when it exists with availability_status false. `invalidDateRange` flashes
"Check-out date must be after the check-in date." `transactionFailed` is a
`mysql.connector.Error` raised during the write transaction, answered by
`conn.rollback()`. -/
inductive BookError where
  | roomUnavailable
  | invalidDateRange
  | transactionFailed
deriving DecidableEq

/-- The SELECT of the room row (src/app.py line 279). -/
def roomCheck (db : DB) (rid : Nat) : Option Room :=
  db.rooms.find? (fun r => r.room_id == rid)

/-- The BOOKINGS row the transaction inserts (src/app.py line 305):
total_price is num_days × price_per_night of the fetched room row. -/
def newBooking (db : DB) (req : BookReq) (room : Room) : Booking :=
  { booking_id := db.next_booking_id, user_id := req.user_id, room_id := req.room_id,
    check_in_date := req.check_in_date, check_out_date := req.check_out_date,
    total_price := (req.check_out_date - req.check_in_date) * room.price_per_night,
    booking_status := defaultBookingStatus }

/-- The PAYMENTS row the transaction inserts (src/app.py line 307),
referencing `cursor.lastrowid` with payment_status = 'completed'. -/
def newPayment (db : DB) (req : BookReq) (room : Room) : Payment :=
  { payment_id := db.next_payment_id, booking_id := db.next_booking_id,
    payment_method := req.payment_method,
    amount := (req.check_out_date - req.check_in_date) * room.price_per_night,
    payment_status := "completed" }

/-- The three writes of the booking transaction (src/app.py lines 305-308),
applied to the store in order: INSERT BOOKINGS, read `cursor.lastrowid` as
the new booking id, INSERT PAYMENTS referencing it, UPDATE ROOMS SET
availability_status = 0. -/
def bookWrites (db : DB) (req : BookReq) (room : Room) : DB × Nat :=
  ({ db with
      bookings := db.bookings ++ [newBooking db req room],
      payments := db.payments ++ [newPayment db req room],
      rooms := db.rooms.map (fun r =>
        if r.room_id == req.room_id then { r with availability_status := false } else r),
      next_booking_id := db.next_booking_id + 1,
      next_payment_id := db.next_payment_id + 1 }, db.next_booking_id)

/-- The `book_room` POST handler after the room row has been fetched
(src/app.py lines 282-316): availability check on the fetched row, date
validation, then the write transaction. `failTxn` models whether the store
raises `mysql.connector.Error` somewhere during the three writes or the
commit; in that case the handler calls `conn.rollback()`, so none of the
uncommitted writes persist and the store is left as it was. -/
def bookRoomWith (db : DB) (req : BookReq) (room : Room) (failTxn : Bool) :
    DB × Except BookError Nat :=
  if room.availability_status = false then
    (db, .error .roomUnavailable)
  else
    let num_days := req.check_out_date - req.check_in_date
    if num_days ≤ 0 then
      (db, .error .invalidDateRange)
    else if failTxn then
      (db, .error .transactionFailed)
    else
      let res := bookWrites db req room
      (res.1, .ok res.2)

/-- The `book_room` POST handler core (src/app.py lines 279-316): SELECT the
room row, then validate and write. Returns the resulting store and the
caller's observation. -/
def bookRoom (db : DB) (req : BookReq) (failTxn : Bool) : DB × Except BookError Nat :=
  match roomCheck db req.room_id with
  | none => (db, .error .roomUnavailable)
  | some room => bookRoomWith db req room failTxn

/-- The reconciler's selection predicate (src/app.py line 109):
`check_out_date <= now AND booking_status = 'confirmed'`. -/
def isExpiredConfirmed (now : Int) (b : Booking) : Bool :=
  decide (b.check_out_date ≤ now) && (b.booking_status == BStatus.confirmed)

/-- The reconciler's SELECT (src/app.py lines 109-110). -/
def expiredBookings (db : DB) (now : Int) : List Booking :=
  db.bookings.filter (isExpiredConfirmed now)

/-- One iteration of the reconciler loop (src/app.py lines 111-113): set the
booking's room available, then mark every still-confirmed expired booking of
that room completed. -/
def reconcileStep (now : Int) (d : DB) (b : Booking) : DB :=
  { d with
      rooms := d.rooms.map (fun r =>
        if r.room_id == b.room_id then { r with availability_status := true } else r),
      bookings := d.bookings.map (fun bk =>
        if bk.room_id == b.room_id && isExpiredConfirmed now bk then
          { bk with booking_status := BStatus.completed }
        else bk) }

/-- `update_room_availability` (src/app.py lines 104-119): select the
expired confirmed bookings, loop the two UPDATEs over them, and commit only
if the selection was non-empty. -/
def updateRoomAvailability (db : DB) (now : Int) : DB :=
  (expiredBookings db now).foldl (reconcileStep now) db

/-- `update_room_availability` together with its Python return value: the
function body ends without a `return` statement, so it returns None. -/
def updateRoomAvailabilityRun (db : DB) (now : Int) : DB × Option Nat :=
  (updateRoomAvailability db now, none)

/-- `cancel_booking` (src/app.py lines 391-418): look the booking up by id
and requesting user; if found, DELETE the booking's PAYMENTS rows, set the
booking's room available, DELETE the BOOKINGS row, and commit. The second
component records whether the booking was found. -/
def cancelBooking (db : DB) (uid : Nat) (bid : Nat) : DB × Bool :=
  match db.bookings.find? (fun bk => bk.booking_id == bid && bk.user_id == uid) with
  | none => (db, false)
  | some booking =>
    ({ db with
        payments := db.payments.filter (fun p => !(p.booking_id == bid)),
        rooms := db.rooms.map (fun r =>
          if r.room_id == booking.room_id then { r with availability_status := true } else r),
        bookings := db.bookings.filter (fun bk => !(bk.booking_id == bid)) }, true)

/-- Interleaved execution of two booking requests in which both handlers'
room SELECTs read the initial store before either handler's write
transaction commits (the schedule a store running at read-committed or
snapshot isolation permits, since `book_room` takes no row lock and its
UPDATE of the room is unconditional). Handler 1 then commits its writes,
and handler 2 — validating against the room row it already fetched —
commits its writes on top. -/
def bookRoomConcurrent (db : DB) (req1 req2 : BookReq) :
    DB × Except BookError Nat × Except BookError Nat :=
  match roomCheck db req1.room_id, roomCheck db req2.room_id with
  | none, none => (db, .error .roomUnavailable, .error .roomUnavailable)
  | none, some room2 =>
      let r2 := bookRoomWith db req2 room2 false
      (r2.1, .error .roomUnavailable, r2.2)
  | some room1, none =>
      let r1 := bookRoomWith db req1 room1 false
      (r1.1, r1.2, .error .roomUnavailable)
  | some room1, some room2 =>
      let r1 := bookRoomWith db req1 room1 false
      let r2 := bookRoomWith r1.1 req2 room2 false
      (r2.1, r1.2, r2.2)

/-- Number of confirmed bookings referencing a given room id. -/
def activeCount (bs : List Booking) (rid : Nat) : Nat :=
  (bs.filter (fun b => b.room_id == rid && b.booking_status == BStatus.confirmed)).length

/-- The availability invariant of the spec: a room is available iff no
confirmed booking references it, and an unavailable room is referenced by
exactly one confirmed booking. -/
def Inv (db : DB) : Prop :=
  ∀ r ∈ db.rooms,
    (r.availability_status = true ↔ activeCount db.bookings r.room_id = 0) ∧
    (r.availability_status = false → activeCount db.bookings r.room_id = 1)

instance (db : DB) : Decidable (Inv db) := by
  unfold Inv
  exact List.decidableBAll _ _

/-- States reachable from `s` through the booking transaction handler and
the availability reconciler. -/
inductive Reachable : DB → DB → Prop where
  | refl (s : DB) : Reachable s s
  | book (s t : DB) (req : BookReq) (failTxn : Bool) :
      Reachable s t → Reachable s (bookRoom t req failTxn).1
  | reconcile (s t : DB) (now : Int) :
      Reachable s t → Reachable s (updateRoomAvailability t now)

/-- Whether a reconciler run at `now` touches the room with id `rid`,
i.e. some expired confirmed booking references it. -/
def touchedRoom (db : DB) (now : Int) (rid : Nat) : Bool :=
  (expiredBookings db now).any (fun b => b.room_id == rid)

/-- The net effect of the reconciler on one booking row: an expired
confirmed booking becomes completed, every other booking is untouched. -/
def completeExpired (now : Int) (b : Booking) : Booking :=
  if isExpiredConfirmed now b then { b with booking_status := BStatus.completed } else b

/-- Cumulative effect of the reconciler loop on one room row: a room is
freed exactly when some selected booking references it. -/
def reconRoomUpd (E : List Booking) (r : Room) : Room :=
  if E.any (fun b => b.room_id == r.room_id) then { r with availability_status := true } else r

/-- Cumulative effect of the reconciler loop on one booking row. -/
def reconBookingUpd (now : Int) (E : List Booking) (bk : Booking) : Booking :=
  if E.any (fun b => b.room_id == bk.room_id) && isExpiredConfirmed now bk then
    { bk with booking_status := BStatus.completed }
  else bk

/-- Confirmed bookings referencing a room that are not yet expired. -/
def activeUnexpired (bs : List Booking) (now : Int) (rid : Nat) : Nat :=
  (bs.filter (fun b =>
    b.room_id == rid && b.booking_status == BStatus.confirmed &&
      !(decide (b.check_out_date ≤ now)))).length

/-- Expired confirmed bookings referencing a room. -/
def expiredRefs (bs : List Booking) (now : Int) (rid : Nat) : Nat :=
  (bs.filter (fun b => b.room_id == rid && isExpiredConfirmed now b)).length

/-! Concrete fixtures used by witnesses and counterexamples. Dates are day
ordinals since 1970-01-01, so 19732 is 2024-01-10 and 19734 is 2024-01-12. -/

def roomW : Room := { room_id := 1, property_id := 1, price_per_night := 100, availability_status := true }

def dbW : DB := { rooms := [roomW], bookings := [], payments := [], next_booking_id := 1, next_payment_id := 1 }

def reqW : BookReq := { user_id := 7, room_id := 1, check_in_date := 19732, check_out_date := 19734, payment_method := "card" }

def roomW6 : Room := { room_id := 3, property_id := 1, price_per_night := 80, availability_status := true }

def dbW6 : DB := { rooms := [roomW6], bookings := [], payments := [], next_booking_id := 1, next_payment_id := 1 }

def reqW6 : BookReq := { user_id := 2, room_id := 3, check_in_date := 10, check_out_date := 10, payment_method := "card" }

def dbE : DB := { rooms := [], bookings := [], payments := [], next_booking_id := 1, next_payment_id := 1 }

def reqE : BookReq := { user_id := 2, room_id := 5, check_in_date := 10, check_out_date := 10, payment_method := "upi" }

def roomB7 : Room := { room_id := 7, property_id := 2, price_per_night := 60, availability_status := false }

def dbA7 : DB := { rooms := [], bookings := [], payments := [], next_booking_id := 1, next_payment_id := 1 }

def dbB7 : DB := { rooms := [roomB7], bookings := [], payments := [], next_booking_id := 1, next_payment_id := 1 }

def req7 : BookReq := { user_id := 1, room_id := 7, check_in_date := 1, check_out_date := 3, payment_method := "card" }

def roomC : Room := { room_id := 4, property_id := 1, price_per_night := 50, availability_status := true }

def dbC : DB := { rooms := [roomC], bookings := [], payments := [], next_booking_id := 1, next_payment_id := 1 }

def reqC1 : BookReq := { user_id := 11, room_id := 4, check_in_date := 0, check_out_date := 2, payment_method := "card" }

def reqC2 : BookReq := { user_id := 12, room_id := 4, check_in_date := 1, check_out_date := 3, payment_method := "upi" }

def roomX1 : Room := { room_id := 1, property_id := 1, price_per_night := 10, availability_status := false }

def roomX2 : Room := { room_id := 2, property_id := 1, price_per_night := 10, availability_status := false }

def bX1 : Booking := { booking_id := 1, user_id := 5, room_id := 1, check_in_date := 0, check_out_date := 2, total_price := 20, booking_status := .confirmed }

def bX2 : Booking := { booking_id := 2, user_id := 6, room_id := 2, check_in_date := 0, check_out_date := 5, total_price := 50, booking_status := .confirmed }

def dbX : DB := { rooms := [roomX1, roomX2], bookings := [bX1, bX2], payments := [], next_booking_id := 3, next_payment_id := 1 }

def roomY : Room := { room_id := 9, property_id := 1, price_per_night := 10, availability_status := false }

def bY : Booking := { booking_id := 1, user_id := 2, room_id := 9, check_in_date := 0, check_out_date := 10, total_price := 100, booking_status := .confirmed }

def dbY : DB := { rooms := [roomY], bookings := [bY], payments := [], next_booking_id := 2, next_payment_id := 1 }

def room10 : Room := { room_id := 2, property_id := 1, price_per_night := 70, availability_status := false }

def b10 : Booking := { booking_id := 1, user_id := 3, room_id := 2, check_in_date := 0, check_out_date := 5, total_price := 350, booking_status := .completed }

def b11 : Booking := { booking_id := 2, user_id := 4, room_id := 2, check_in_date := 6, check_out_date := 100, total_price := 700, booking_status := .confirmed }

def p10 : Payment := { payment_id := 1, booking_id := 1, payment_method := "card", amount := 350, payment_status := "completed" }

def db10 : DB := { rooms := [room10], bookings := [b10, b11], payments := [p10], next_booking_id := 3, next_payment_id := 2 }

/-! Helper lemmas. -/

lemma bookRoom_of_none (db : DB) (req : BookReq) (failTxn : Bool)
    (h : roomCheck db req.room_id = none) :
    bookRoom db req failTxn = (db, .error .roomUnavailable) := by
  simp only [bookRoom, h]

lemma bookRoom_of_some (db : DB) (req : BookReq) (failTxn : Bool) (room : Room)
    (h : roomCheck db req.room_id = some room) :
    bookRoom db req failTxn = bookRoomWith db req room failTxn := by
  simp only [bookRoom, h]

lemma bookRoomWith_unavail (db : DB) (req : BookReq) (room : Room) (failTxn : Bool)
    (hav : room.availability_status = false) :
    bookRoomWith db req room failTxn = (db, .error .roomUnavailable) := by
  unfold bookRoomWith
  rw [hav]
  simp

lemma bookRoomWith_baddate (db : DB) (req : BookReq) (room : Room) (failTxn : Bool)
    (hav : room.availability_status = true)
    (hnd : req.check_out_date - req.check_in_date ≤ 0) :
    bookRoomWith db req room failTxn = (db, .error .invalidDateRange) := by
  unfold bookRoomWith
  rw [hav]
  simp [hnd]

lemma bookRoomWith_txnfail (db : DB) (req : BookReq) (room : Room)
    (hav : room.availability_status = true)
    (hnd : ¬(req.check_out_date - req.check_in_date ≤ 0)) :
    bookRoomWith db req room true = (db, .error .transactionFailed) := by
  unfold bookRoomWith
  rw [hav]
  simp [hnd]

lemma bookRoomWith_success (db : DB) (req : BookReq) (room : Room)
    (hav : room.availability_status = true)
    (hnd : ¬(req.check_out_date - req.check_in_date ≤ 0)) :
    bookRoomWith db req room false =
      ((bookWrites db req room).1, .ok (bookWrites db req room).2) := by
  unfold bookRoomWith
  rw [hav]
  simp [hnd]

lemma completed_beq_confirmed : (BStatus.completed == BStatus.confirmed) = false := rfl

lemma isExpiredConfirmed_completed (now : Int) (bk : Booking) :
    isExpiredConfirmed now { bk with booking_status := BStatus.completed } = false := by
  simp [isExpiredConfirmed, completed_beq_confirmed]

lemma reconRoomUpd_step (b : Booking) (E : List Booking) (r : Room) :
    reconRoomUpd E (if r.room_id == b.room_id then { r with availability_status := true } else r)
      = reconRoomUpd (b :: E) r := by
  by_cases h : r.room_id = b.room_id
  · have h1 : (r.room_id == b.room_id) = true := by simp [h]
    have h2 : (b.room_id == r.room_id) = true := by simp [h]
    simp [reconRoomUpd, h1, h2, List.any_cons]
  · have h1 : (r.room_id == b.room_id) = false := by simp [h]
    have h2 : (b.room_id == r.room_id) = false := by simp [Ne.symm h]
    simp [reconRoomUpd, h1, h2, List.any_cons]

lemma reconBookingUpd_step (now : Int) (b : Booking) (E : List Booking) (bk : Booking) :
    reconBookingUpd now E
      (if bk.room_id == b.room_id && isExpiredConfirmed now bk then
        { bk with booking_status := BStatus.completed } else bk)
      = reconBookingUpd now (b :: E) bk := by
  by_cases h : bk.room_id = b.room_id
  · by_cases he : isExpiredConfirmed now bk = true
    · have h1 : (bk.room_id == b.room_id) = true := by simp [h]
      have h2 : (b.room_id == bk.room_id) = true := by simp [h]
      simp [reconBookingUpd, h1, h2, he, List.any_cons, isExpiredConfirmed_completed]
    · have he' : isExpiredConfirmed now bk = false := by simpa using he
      simp [reconBookingUpd, he', List.any_cons]
  · have h1 : (bk.room_id == b.room_id) = false := by simp [h]
    have h2 : (b.room_id == bk.room_id) = false := by simp [Ne.symm h]
    simp [reconBookingUpd, h1, h2, List.any_cons]

lemma foldl_reconcileStep (now : Int) (E : List Booking) :
    ∀ d : DB,
      (E.foldl (reconcileStep now) d).rooms = d.rooms.map (reconRoomUpd E) ∧
      (E.foldl (reconcileStep now) d).bookings = d.bookings.map (reconBookingUpd now E) ∧
      (E.foldl (reconcileStep now) d).payments = d.payments ∧
      (E.foldl (reconcileStep now) d).next_booking_id = d.next_booking_id ∧
      (E.foldl (reconcileStep now) d).next_payment_id = d.next_payment_id := by
  induction E with
  | nil =>
    intro d
    refine ⟨?_, ?_, rfl, rfl, rfl⟩
    · exact (List.map_id'' (fun r => by simp [reconRoomUpd]) d.rooms).symm
    · exact (List.map_id'' (fun bk => by simp [reconBookingUpd]) d.bookings).symm
  | cons b E ih =>
    intro d
    obtain ⟨h1, h2, h3, h4, h5⟩ := ih (reconcileStep now d b)
    simp only [List.foldl_cons]
    refine ⟨?_, ?_, ?_, ?_, ?_⟩
    · rw [h1]
      show (d.rooms.map _).map (reconRoomUpd E) = _
      rw [List.map_map]
      refine List.map_congr_left ?_
      intro r _
      exact reconRoomUpd_step b E r
    · rw [h2]
      show (d.bookings.map _).map (reconBookingUpd now E) = _
      rw [List.map_map]
      refine List.map_congr_left ?_
      intro bk _
      exact reconBookingUpd_step now b E bk
    · exact h3.trans rfl
    · exact h4.trans rfl
    · exact h5.trans rfl

lemma reconcile_rooms (db : DB) (now : Int) :
    (updateRoomAvailability db now).rooms =
      db.rooms.map (fun r =>
        if touchedRoom db now r.room_id then { r with availability_status := true } else r) :=
  (foldl_reconcileStep now (expiredBookings db now) db).1

lemma reconcile_bookings (db : DB) (now : Int) :
    (updateRoomAvailability db now).bookings = db.bookings.map (completeExpired now) := by
  have h := (foldl_reconcileStep now (expiredBookings db now) db).2.1
  unfold updateRoomAvailability
  rw [h]
  refine List.map_congr_left ?_
  intro bk hbk
  by_cases he : isExpiredConfirmed now bk = true
  · have hmem : bk ∈ expiredBookings db now := List.mem_filter.2 ⟨hbk, he⟩
    have hany : (expiredBookings db now).any (fun b => b.room_id == bk.room_id) = true :=
      List.any_eq_true.2 ⟨bk, hmem, by simp⟩
    simp [reconBookingUpd, completeExpired, hany, he]
  · have he' : isExpiredConfirmed now bk = false := by simpa using he
    simp [reconBookingUpd, completeExpired, he']

lemma filter_false_eq_nil {α : Type} {p : α → Bool} (l : List α)
    (h : ∀ a ∈ l, p a = false) : l.filter p = [] :=
  List.filter_eq_nil_iff.2 (fun a ha => by simp [h a ha])

lemma expiredBookings_after_run (db : DB) (now : Int) :
    expiredBookings (updateRoomAvailability db now) now = [] := by
  unfold expiredBookings
  apply filter_false_eq_nil
  rw [reconcile_bookings]
  intro bk hbk
  obtain ⟨b0, _, rfl⟩ := List.mem_map.1 hbk
  by_cases he : isExpiredConfirmed now b0 = true
  · simp [completeExpired, he, isExpiredConfirmed_completed]
  · have he' : isExpiredConfirmed now b0 = false := by simpa using he
    simp [completeExpired, he']

lemma activeCount_append (bs : List Booking) (b : Booking) (rid : Nat) :
    activeCount (bs ++ [b]) rid =
      activeCount bs rid +
        (if b.room_id == rid && b.booking_status == BStatus.confirmed then 1 else 0) := by
  unfold activeCount
  rw [List.filter_append, List.length_append]
  congr 1
  rw [List.filter_cons]
  cases h : (b.room_id == rid && b.booking_status == BStatus.confirmed) <;> simp [h]

lemma activeCount_split (bs : List Booking) (now : Int) (rid : Nat) :
    activeCount bs rid = activeUnexpired bs now rid + expiredRefs bs now rid := by
  induction bs with
  | nil => rfl
  | cons b bs ih =>
    unfold activeCount activeUnexpired expiredRefs at ih ⊢
    rw [List.filter_cons, List.filter_cons, List.filter_cons]
    by_cases h1 : b.room_id = rid
    · by_cases h2 : b.booking_status = BStatus.confirmed
      · by_cases h3 : b.check_out_date ≤ now
        · simp [h1, h2, h3, isExpiredConfirmed] at ih ⊢
          omega
        · simp [h1, h2, h3, isExpiredConfirmed] at ih ⊢
          omega
      · simp [h1, h2, isExpiredConfirmed] at ih ⊢
        omega
    · simp [h1, isExpiredConfirmed] at ih ⊢
      omega

lemma activeCount_map_complete (bs : List Booking) (now : Int) (rid : Nat) :
    activeCount (bs.map (completeExpired now)) rid = activeUnexpired bs now rid := by
  induction bs with
  | nil => rfl
  | cons b bs ih =>
    rw [List.map_cons]
    unfold activeCount activeUnexpired at ih ⊢
    rw [List.filter_cons, List.filter_cons]
    by_cases he : isExpiredConfirmed now b = true
    · have hparts : b.check_out_date ≤ now ∧ b.booking_status = BStatus.confirmed := by
        simpa [isExpiredConfirmed] using he
      have hcb : completeExpired now b = { b with booking_status := BStatus.completed } := by
        simp [completeExpired, he]
      rw [hcb]
      simp [completed_beq_confirmed, hparts.1] at ih ⊢
      omega
    · have he' : isExpiredConfirmed now b = false := by simpa using he
      have hcb : completeExpired now b = b := by simp [completeExpired, he']
      rw [hcb]
      by_cases h1 : b.room_id = rid
      · by_cases h2 : b.booking_status = BStatus.confirmed
        · have h3 : ¬(b.check_out_date ≤ now) := by
            intro hle
            rw [isExpiredConfirmed] at he'
            simp [hle, h2] at he'
          simp [h1, h2, h3] at ih ⊢
          omega
        · simp [h1, h2] at ih ⊢
          omega
      · simp [h1] at ih ⊢
        omega

lemma inv_book (db : DB) (req : BookReq) (failTxn : Bool) (h : Inv db) :
    Inv (bookRoom db req failTxn).1 := by
  cases hfind : roomCheck db req.room_id with
  | none => rw [bookRoom_of_none db req failTxn hfind]; exact h
  | some room =>
    rw [bookRoom_of_some db req failTxn room hfind]
    cases hav : room.availability_status with
    | false => rw [bookRoomWith_unavail db req room failTxn hav]; exact h
    | true =>
      by_cases hnd : req.check_out_date - req.check_in_date ≤ 0
      · rw [bookRoomWith_baddate db req room failTxn hav hnd]; exact h
      · cases failTxn with
        | true => rw [bookRoomWith_txnfail db req room hav hnd]; exact h
        | false =>
          rw [bookRoomWith_success db req room hav hnd]
          show Inv (bookWrites db req room).1
          have hmem : room ∈ db.rooms := List.mem_of_find?_eq_some hfind
          have hrid : room.room_id = req.room_id := by
            have := List.find?_some hfind
            simpa using this
          have hzero : activeCount db.bookings req.room_id = 0 := by
            have h0 := (h room hmem).1.mp hav
            rwa [hrid] at h0
          intro r2 hr2
          have hrooms : (bookWrites db req room).1.rooms = db.rooms.map (fun r =>
              if r.room_id == req.room_id then { r with availability_status := false } else r) := rfl
          have hbks : (bookWrites db req room).1.bookings =
              db.bookings ++ [newBooking db req room] := rfl
          rw [hrooms] at hr2
          rw [hbks]
          obtain ⟨r, hrmem, rfl⟩ := List.mem_map.1 hr2
          rw [activeCount_append]
          by_cases hri : r.room_id = req.room_id
          · have h1 : (r.room_id == req.room_id) = true := by simp [hri]
            have hc : activeCount db.bookings r.room_id = 0 := by rw [hri]; exact hzero
            have hcond : ((newBooking db req room).room_id == r.room_id &&
                (newBooking db req room).booking_status == BStatus.confirmed) = true := by
              simp [newBooking, defaultBookingStatus, hri]
            simp [h1, hcond, hc]
          · have h1 : (r.room_id == req.room_id) = false := by simp [hri]
            have hcond : ((newBooking db req room).room_id == r.room_id &&
                (newBooking db req room).booking_status == BStatus.confirmed) = false := by
              simp [newBooking, Ne.symm hri]
            simp only [h1]
            simp [hcond]
            simpa using h r hrmem

lemma inv_reconcile (db : DB) (now : Int) (h : Inv db) :
    Inv (updateRoomAvailability db now) := by
  intro r2 hr2
  rw [reconcile_rooms] at hr2
  obtain ⟨r, hrmem, rfl⟩ := List.mem_map.1 hr2
  rw [reconcile_bookings, activeCount_map_complete]
  by_cases ht : touchedRoom db now r.room_id = true
  · have hpos : 0 < expiredRefs db.bookings now r.room_id := by
      obtain ⟨e, he, heq⟩ := List.any_eq_true.1 ht
      have heE := List.mem_filter.1 he
      have hmeme : e ∈ db.bookings.filter
          (fun b => b.room_id == r.room_id && isExpiredConfirmed now b) :=
        List.mem_filter.2 ⟨heE.1, by simp [heq, heE.2]⟩
      exact List.length_pos_of_mem hmeme
    have hsplit := activeCount_split db.bookings now r.room_id
    obtain ⟨hiff, himp⟩ := h r hrmem
    have havail : r.availability_status = false := by
      by_contra hAv
      have hA : r.availability_status = true := by
        revert hAv
        cases r.availability_status <;> simp
      have h0 := hiff.1 hA
      omega
    have hone := himp havail
    have hU : activeUnexpired db.bookings now r.room_id = 0 := by omega
    simp [ht, hU]
  · have ht' : touchedRoom db now r.room_id = false := by
      revert ht
      cases touchedRoom db now r.room_id <;> simp
    have hE0 : expiredRefs db.bookings now r.room_id = 0 := by
      unfold expiredRefs
      have hnil : db.bookings.filter
          (fun b => b.room_id == r.room_id && isExpiredConfirmed now b) = [] := by
        apply filter_false_eq_nil
        intro b hb
        cases hp : (b.room_id == r.room_id && isExpiredConfirmed now b) with
        | false => rfl
        | true =>
          exfalso
          have hparts : (b.room_id == r.room_id) = true ∧ isExpiredConfirmed now b = true := by
            simpa using hp
          have hmem : b ∈ expiredBookings db now := List.mem_filter.2 ⟨hb, hparts.2⟩
          have hT : touchedRoom db now r.room_id = true :=
            List.any_eq_true.2 ⟨b, hmem, hparts.1⟩
          rw [ht'] at hT
          exact Bool.noConfusion hT
      rw [hnil]
      rfl
    have hsplit := activeCount_split db.bookings now r.room_id
    have hU : activeUnexpired db.bookings now r.room_id = activeCount db.bookings r.room_id := by
      omega
    simp only [ht', Bool.false_eq_true, if_false]
    rw [hU]
    exact h r hrmem

/-! Claim theorems. -/

/-- C1: a validated booking request either commits exactly one Booking row
(status = confirmed), one Payment row (status = completed, referencing the
new booking id) and the room's availability flip together, or — when the
store fails during the transaction — is rolled back whole: the caller
observes the transaction failure, the store is unchanged and the room is
still available. -/
theorem booking_transaction_atomic (db : DB) (req : BookReq) (room : Room)
    (hfind : roomCheck db req.room_id = some room)
    (hav : room.availability_status = true)
    (hdate : req.check_in_date < req.check_out_date) :
    ((bookRoom db req false).2 = .ok db.next_booking_id ∧
     (bookRoom db req false).1.bookings = db.bookings ++
       [{ booking_id := db.next_booking_id, user_id := req.user_id, room_id := req.room_id,
          check_in_date := req.check_in_date, check_out_date := req.check_out_date,
          total_price := (req.check_out_date - req.check_in_date) * room.price_per_night,
          booking_status := BStatus.confirmed }] ∧
     (bookRoom db req false).1.payments = db.payments ++
       [{ payment_id := db.next_payment_id, booking_id := db.next_booking_id,
          payment_method := req.payment_method,
          amount := (req.check_out_date - req.check_in_date) * room.price_per_night,
          payment_status := "completed" }] ∧
     (bookRoom db req false).1.rooms = db.rooms.map (fun r =>
       if r.room_id == req.room_id then { r with availability_status := false } else r)) ∧
    ((bookRoom db req true).2 = .error .transactionFailed ∧
     (bookRoom db req true).1 = db ∧
     roomCheck (bookRoom db req true).1 req.room_id = some room ∧
     room.availability_status = true) := by
  have hnd : ¬(req.check_out_date - req.check_in_date ≤ 0) := by omega
  rw [bookRoom_of_some db req false room hfind, bookRoom_of_some db req true room hfind,
    bookRoomWith_success db req room hav hnd, bookRoomWith_txnfail db req room hav hnd]
  refine ⟨⟨rfl, ?_, ?_, ?_⟩, rfl, rfl, hfind, hav⟩ <;>
    simp [bookWrites, newBooking, newPayment, defaultBookingStatus]

/-- C1 witness: on a concrete store with one available room, the committed
run succeeds with the fresh booking id and the failing run leaves the store
untouched. -/
theorem booking_transaction_atomic_witness :
    roomCheck dbW reqW.room_id = some roomW ∧ roomW.availability_status = true ∧
      reqW.check_in_date < reqW.check_out_date ∧
      (bookRoom dbW reqW false).2 = .ok dbW.next_booking_id ∧
      (bookRoom dbW reqW true).1 = dbW :=
  ⟨by decide, by decide, by decide,
   (booking_transaction_atomic dbW reqW roomW (by decide) (by decide) (by decide)).1.1,
   (booking_transaction_atomic dbW reqW roomW (by decide) (by decide) (by decide)).2.2.1⟩

/-- C2: the availability invariant — a room is available iff no confirmed
booking references it, and an unavailable room has exactly one confirmed
booking — holds in every state reachable from an invariant state through
the booking transaction handler and the availability reconciler. -/
theorem availability_invariant (s t : DB) (h : Inv s) (hr : Reachable s t) : Inv t := by
  induction hr with
  | refl => exact h
  | book t req failTxn _ ih => exact inv_book t req failTxn ih
  | reconcile t now _ ih => exact inv_reconcile t now ih

/-- C2 witness: a two-step trace — book the room, then reconcile on the
check-out day — starting from a concrete invariant store. -/
theorem availability_invariant_witness :
    Inv dbW ∧ Inv (updateRoomAvailability (bookRoom dbW reqW false).1 19734) :=
  ⟨by decide,
   availability_invariant dbW _ (by decide)
     (Reachable.reconcile dbW (bookRoom dbW reqW false).1 19734
       (Reachable.book dbW dbW reqW false (Reachable.refl dbW)))⟩

/-- C3: a reconciler run completes exactly the bookings that are confirmed
with check_out_date ≤ now (the boundary check_out_date = now included, since
the selection uses ≤), frees exactly the rooms those bookings reference, and
touches no other booking, room or payment. -/
theorem reconciler_transitions_exactly_expired (db : DB) (now : Int) :
    (updateRoomAvailability db now).bookings = db.bookings.map (completeExpired now) ∧
    (updateRoomAvailability db now).rooms =
      db.rooms.map (fun r =>
        if touchedRoom db now r.room_id then { r with availability_status := true } else r) ∧
    (updateRoomAvailability db now).payments = db.payments :=
  ⟨reconcile_bookings db now, reconcile_rooms db now,
   (foldl_reconcileStep now (expiredBookings db now) db).2.2.1⟩

/-- C4 counterexample: with two confirmed bookings checking out on day 2 and
day 5 and no new bookings in between, a first run at now = 3 and a second
run at the later now = 6 give the second run one matching row and a real
write — the claim's "at the same or a later now, zero rows" fails for a
later now. -/
theorem reconciler_later_run_counterexample :
    (expiredBookings (updateRoomAvailability dbX 3) 6).length = 1 ∧
    updateRoomAvailability (updateRoomAvailability dbX 3) 6 ≠ updateRoomAvailability dbX 3 := by
  decide

/-- C4 amended: a second run at the same now matches zero rows and performs
no write (so the commit is skipped); and, in an invariant state, a run never
touches — in particular never frees — a room whose confirmed booking is not
yet expired, because runs only select bookings still in status confirmed. -/
theorem reconciler_idempotent_same_now (db : DB) (now : Int) :
    (expiredBookings (updateRoomAvailability db now) now = [] ∧
     updateRoomAvailability (updateRoomAvailability db now) now = updateRoomAvailability db now) ∧
    ((updateRoomAvailability db now).rooms =
      db.rooms.map (fun r =>
        if touchedRoom db now r.room_id then { r with availability_status := true } else r)) ∧
    (Inv db → ∀ r ∈ db.rooms, ∀ b ∈ db.bookings, b.room_id = r.room_id →
      b.booking_status = BStatus.confirmed → now < b.check_out_date →
      touchedRoom db now r.room_id = false) := by
  refine ⟨⟨expiredBookings_after_run db now, ?_⟩, reconcile_rooms db now, ?_⟩
  · calc updateRoomAvailability (updateRoomAvailability db now) now
        = (expiredBookings (updateRoomAvailability db now) now).foldl
            (reconcileStep now) (updateRoomAvailability db now) := rfl
      _ = ([] : List Booking).foldl (reconcileStep now) (updateRoomAvailability db now) := by
            rw [expiredBookings_after_run db now]
      _ = updateRoomAvailability db now := rfl
  · intro hInv r hr b hb hrid hconf hlt
    cases hT : touchedRoom db now r.room_id with
    | false => rfl
    | true =>
      exfalso
      obtain ⟨e, he, heq⟩ := List.any_eq_true.1 hT
      have heE := List.mem_filter.1 he
      have hre : e.room_id = r.room_id := by simpa using heq
      have heparts : e.check_out_date ≤ now ∧ e.booking_status = BStatus.confirmed := by
        have h2 := heE.2
        simpa [isExpiredConfirmed] using h2
      have hmemb : b ∈ db.bookings.filter
          (fun x => x.room_id == r.room_id && x.booking_status == BStatus.confirmed) :=
        List.mem_filter.2 ⟨hb, by simp [hrid, hconf]⟩
      have hmeme : e ∈ db.bookings.filter
          (fun x => x.room_id == r.room_id && x.booking_status == BStatus.confirmed) :=
        List.mem_filter.2 ⟨heE.1, by simp [hre, heparts.2]⟩
      have hone : activeCount db.bookings r.room_id = 1 := by
        obtain ⟨hiff, himp⟩ := hInv r hr
        cases hA : r.availability_status with
        | true =>
          have h0 := hiff.1 hA
          have hpos : 0 < activeCount db.bookings r.room_id :=
            List.length_pos_of_mem hmemb
          omega
        | false => exact himp hA
      obtain ⟨x, hx⟩ := List.length_eq_one.1 hone
      rw [hx] at hmemb hmeme
      have hbx : b = x := by simpa using hmemb
      have hex : e = x := by simpa using hmeme
      rw [hbx] at hlt
      rw [hex] at heparts
      omega

/-- C4 witness: concrete invariant store with a confirmed booking whose
check-out lies in the future — a run at now = 3 does not touch its room. -/
theorem reconciler_idempotent_same_now_witness :
    Inv dbY ∧ touchedRoom dbY 3 9 = false :=
  ⟨by decide,
   (reconciler_idempotent_same_now dbY 3).2.2 (by decide) roomY (by decide) bY (by decide)
     rfl rfl (by decide)⟩

/-- C5: every accepted booking is stored with
total_price = (check_out - check_in) × price_per_night of the booked room,
the date difference being whole days. -/
theorem total_price_formula (db : DB) (req : BookReq) (failTxn : Bool) (bid : Nat) (room : Room)
    (hok : (bookRoom db req failTxn).2 = .ok bid)
    (hfind : roomCheck db req.room_id = some room) :
    ∃ b ∈ (bookRoom db req failTxn).1.bookings,
      b.booking_id = bid ∧
      b.total_price = (req.check_out_date - req.check_in_date) * room.price_per_night := by
  rw [bookRoom_of_some db req failTxn room hfind] at hok ⊢
  cases hav : room.availability_status with
  | false => rw [bookRoomWith_unavail db req room failTxn hav] at hok; simp at hok
  | true =>
    by_cases hnd : req.check_out_date - req.check_in_date ≤ 0
    · rw [bookRoomWith_baddate db req room failTxn hav hnd] at hok
      simp at hok
    · cases failTxn with
      | true =>
        rw [bookRoomWith_txnfail db req room hav hnd] at hok
        simp at hok
      | false =>
        rw [bookRoomWith_success db req room hav hnd] at hok ⊢
        simp [bookWrites] at hok
        refine ⟨newBooking db req room, ?_, ?_, rfl⟩
        · simp [bookWrites]
        · simpa [newBooking] using hok

/-- C5 witness: check_in 2024-01-10, check_out 2024-01-12,
price_per_night 100 yields total_price (19734 - 19732) × 100 = 200. -/
theorem total_price_formula_witness :
    ((bookRoom dbW reqW false).2 = .ok 1 ∧ roomCheck dbW reqW.room_id = some roomW) ∧
      (∃ b ∈ (bookRoom dbW reqW false).1.bookings,
        b.booking_id = 1 ∧
        b.total_price = (reqW.check_out_date - reqW.check_in_date) * roomW.price_per_night) ∧
      (reqW.check_out_date - reqW.check_in_date) * roomW.price_per_night = 200 :=
  ⟨⟨by decide, by decide⟩,
   total_price_formula dbW reqW false 1 roomW (by decide) (by decide),
   by decide⟩

/-- C6 counterexample: a request whose check_out equals its check_in but
whose room id matches no room row is rejected by the earlier room check —
the caller observes the room-unavailable flash, not InvalidDateRange. -/
theorem invalid_daterange_counterexample :
    reqE.check_out_date ≤ reqE.check_in_date ∧
    bookRoom dbE reqE false = (dbE, .error .roomUnavailable) ∧
    (bookRoom dbE reqE false).2 ≠ .error .invalidDateRange := by decide

/-- C6 amended: for an existing, available room, a request whose check_out
is not strictly after its check_in fails with InvalidDateRange and writes
nothing to the store. -/
theorem invalid_daterange_rejected (db : DB) (req : BookReq) (failTxn : Bool) (room : Room)
    (hfind : roomCheck db req.room_id = some room)
    (hav : room.availability_status = true)
    (hdate : req.check_out_date ≤ req.check_in_date) :
    bookRoom db req failTxn = (db, .error .invalidDateRange) := by
  have hnd : req.check_out_date - req.check_in_date ≤ 0 := by omega
  rw [bookRoom_of_some db req failTxn room hfind]
  exact bookRoomWith_baddate db req room failTxn hav hnd

/-- C6 witness: a concrete available room with check_in = check_out is
rejected with InvalidDateRange and the store is unchanged. -/
theorem invalid_daterange_rejected_witness :
    (roomCheck dbW6 reqW6.room_id = some roomW6 ∧ roomW6.availability_status = true ∧
      reqW6.check_out_date ≤ reqW6.check_in_date) ∧
    bookRoom dbW6 reqW6 false = (dbW6, .error .invalidDateRange) :=
  ⟨⟨by decide, by decide, by decide⟩,
   invalid_daterange_rejected dbW6 reqW6 false roomW6 (by decide) (by decide) (by decide)⟩

/-- C7 counterexample: a request for an absent room and a request for an
existing room with availability_status = false produce the identical
observation — the single room-unavailable branch of the handler — so no
distinct NotFound observation exists. -/
theorem notfound_not_distinct_counterexample :
    roomCheck dbA7 req7.room_id = none ∧
    roomCheck dbB7 req7.room_id = some roomB7 ∧ roomB7.availability_status = false ∧
    bookRoom dbA7 req7 false = (dbA7, .error .roomUnavailable) ∧
    bookRoom dbB7 req7 false = (dbB7, .error .roomUnavailable) ∧
    (bookRoom dbA7 req7 false).2 = (bookRoom dbB7 req7 false).2 := by decide

/-- C7 amended: both an absent room and an existing room whose
availability_status is false fail through the same branch with the same
observation (the "This room is currently unavailable." flash); the handler
does not distinguish the two cases. -/
theorem room_absent_or_unavailable_same_error (db : DB) (req : BookReq) (failTxn : Bool) :
    (roomCheck db req.room_id = none →
      bookRoom db req failTxn = (db, .error .roomUnavailable)) ∧
    (∀ room, roomCheck db req.room_id = some room → room.availability_status = false →
      bookRoom db req failTxn = (db, .error .roomUnavailable)) := by
  constructor
  · intro h
    exact bookRoom_of_none db req failTxn h
  · intro room h hav
    rw [bookRoom_of_some db req failTxn room h]
    exact bookRoomWith_unavail db req room failTxn hav

/-- C7 witness: the unavailable-room branch at a concrete store. -/
theorem room_absent_or_unavailable_same_error_witness :
    (roomCheck dbB7 req7.room_id = some roomB7 ∧ roomB7.availability_status = false) ∧
    bookRoom dbB7 req7 false = (dbB7, .error .roomUnavailable) :=
  ⟨⟨by decide, by decide⟩,
   (room_absent_or_unavailable_same_error dbB7 req7 false).2 roomB7 (by decide) (by decide)⟩

/-- C8 counterexample: a run at now = 10 transitions one booking (the
check-out-day boundary is included) yet the function returns None, not the
count 1. -/
theorem reconciler_returns_none_counterexample :
    (expiredBookings dbY 10).length = 1 ∧
    (updateRoomAvailabilityRun dbY 10).2 = none ∧
    (updateRoomAvailabilityRun dbY 10).2 ≠ some 1 := by decide

/-- C8 amended: the reconciler is invoked with no argument beyond the
wall-clock now it reads, transitions every expired confirmed booking, and
returns None — it does not return the count of bookings transitioned. -/
theorem reconciler_no_return_value (db : DB) (now : Int) :
    (updateRoomAvailabilityRun db now).2 = none ∧
    (updateRoomAvailabilityRun db now).1.bookings = db.bookings.map (completeExpired now) :=
  ⟨rfl, reconcile_bookings db now⟩

/-- C9: the handler's availability check is read from a row fetched before
the write transaction and the transaction re-checks nothing, so in the
interleaving where both SELECTs precede both write transactions, two
concurrent requests for the same available room both succeed and leave two
confirmed bookings referencing the room — contradicting the required
"never both succeed". -/
theorem double_booking_both_succeed :
    (bookRoomConcurrent dbC reqC1 reqC2).2.1 = .ok 1 ∧
    (bookRoomConcurrent dbC reqC1 reqC2).2.2 = .ok 2 ∧
    activeCount (bookRoomConcurrent dbC reqC1 reqC2).1.bookings 4 = 2 := by decide

/-- C10: when a booking with the given id exists and belongs to the
requesting user, cancellation deletes the booking's payment rows and the
booking row, keeps every other row, and sets the booking's room available —
with no condition on the booking's status or dates. -/
theorem cancel_unconditional (db : DB) (uid bid : Nat) (b : Booking)
    (hfind : db.bookings.find? (fun bk => bk.booking_id == bid && bk.user_id == uid) = some b) :
    (cancelBooking db uid bid).2 = true ∧
    (∀ p ∈ (cancelBooking db uid bid).1.payments, p.booking_id ≠ bid) ∧
    (∀ bk ∈ (cancelBooking db uid bid).1.bookings, bk.booking_id ≠ bid) ∧
    (∀ p ∈ db.payments, p.booking_id ≠ bid → p ∈ (cancelBooking db uid bid).1.payments) ∧
    (∀ bk ∈ db.bookings, bk.booking_id ≠ bid → bk ∈ (cancelBooking db uid bid).1.bookings) ∧
    (∀ r ∈ db.rooms, r.room_id = b.room_id →
      { r with availability_status := true } ∈ (cancelBooking db uid bid).1.rooms) ∧
    (∀ r ∈ db.rooms, r.room_id ≠ b.room_id → r ∈ (cancelBooking db uid bid).1.rooms) := by
  have hcb : cancelBooking db uid bid = ({ db with
      payments := db.payments.filter (fun p => !(p.booking_id == bid)),
      rooms := db.rooms.map (fun r =>
        if r.room_id == b.room_id then { r with availability_status := true } else r),
      bookings := db.bookings.filter (fun bk => !(bk.booking_id == bid)) }, true) := by
    simp only [cancelBooking, hfind]
  rw [hcb]
  refine ⟨rfl, ?_, ?_, ?_, ?_, ?_, ?_⟩
  · intro p hp
    have hm := (List.mem_filter.1 hp).2
    simpa using hm
  · intro bk hbk
    have hm := (List.mem_filter.1 hbk).2
    simpa using hm
  · intro p hp hne
    exact List.mem_filter.2 ⟨hp, by simpa using hne⟩
  · intro bk hbk hne
    exact List.mem_filter.2 ⟨hbk, by simpa using hne⟩
  · intro r hr hrid
    refine List.mem_map.2 ⟨r, hr, ?_⟩
    simp [hrid]
  · intro r hr hrid
    refine List.mem_map.2 ⟨r, hr, ?_⟩
    simp [hrid]

/-- C10 witness: cancelling an already-completed booking (id 1) marks its
room available even though a newer confirmed booking (id 2) holds the same
room in the concrete store. -/
theorem cancel_unconditional_witness :
    (db10.bookings.find? (fun bk => bk.booking_id == 1 && bk.user_id == 3) = some b10 ∧
      b10.booking_status = BStatus.completed ∧ b11.booking_status = BStatus.confirmed ∧
      b11.room_id = room10.room_id) ∧
    { room10 with availability_status := true } ∈ (cancelBooking db10 3 1).1.rooms :=
  ⟨⟨by decide, rfl, rfl, rfl⟩,
   (cancel_unconditional db10 3 1 b10 (by decide)).2.2.2.2.2.1 room10 (by decide) rfl⟩

end StayNGo
